import Mathlib

/-!
Verification development for the IIDX ScoreBoard client.

The JavaScript sources are shallowly embedded: each store action, hook body
and API helper becomes a pure Lean function over explicit state, the network
is an explicit `respond` oracle, and JS values that matter to control flow
(empty string / null / undefined, truthiness of a destructured function) are
modelled by small inductive types.
-/

namespace IidxClient

/-! ## JS value model (truthiness, optional values) -/

/-- A JavaScript runtime value, as far as the client's control flow inspects
one: the branches below only ever test strict (in)equality with `''`, `null`
and `undefined`, or plain truthiness. -/
inductive JsValue where
  | nullV
  | undefinedV
  | boolV (b : Bool)
  | numV (n : Int)
  | strV (s : String)
  | functionV
  | objectV
deriving DecidableEq

/-- JS truthiness of a value: `null`, `undefined`, `false`, `0` and `''` are
falsy; functions and objects are always truthy. -/
def jsTruthy : JsValue → Bool
  | .nullV => false
  | .undefinedV => false
  | .boolV b => b
  | .numV n => n != 0
  | .strV s => s != ""
  | .functionV => true
  | .objectV => true

/-- JS `String.prototype.endsWith`, computed on the character sequence. -/
def jsEndsWith (s suffix : String) : Bool :=
  suffix.data.isSuffixOf s.data

/-- JS `String.prototype.includes` with a single-character needle. -/
def jsIncludesChar (s : String) (c : Char) : Bool :=
  s.data.contains c

/-- JS `String.prototype.trim`: strip leading and trailing whitespace. -/
def jsTrim (s : String) : String :=
  ⟨((s.data.dropWhile Char.isWhitespace).reverse.dropWhile Char.isWhitespace).reverse⟩

/-! ## Score-query store (`src/store/scoresStore.js`, embedded from the copy
in `src/hooks/useDashboard.js` lines 102-165) -/

/-- The `filters` object of the scores store: four string-valued fields,
`''` meaning "no constraint". -/
structure Filters where
  playStyle : String
  level : String
  chartType : String
  clearType : String
deriving DecidableEq

/-- A partial filter object passed to `setFilters`; `none` means the field is
absent from the argument object, so the spread keeps the old value. -/
structure FiltersPatch where
  playStyle : Option String
  level : Option String
  chartType : Option String
  clearType : Option String
deriving DecidableEq

/-- The `pagination` object of the scores store. -/
structure Pagination where
  page : Nat
  size : Nat
deriving DecidableEq

/-- Whole state of the scores store. -/
structure ScoresState where
  filters : Filters
  pagination : Pagination
deriving DecidableEq

/-- `{ ...state.filters, ...newFilters }`: fields present in the patch
overwrite, absent fields keep their previous value. -/
def mergeFilters (old : Filters) (p : FiltersPatch) : Filters :=
  { playStyle := p.playStyle.getD old.playStyle
    level := p.level.getD old.level
    chartType := p.chartType.getD old.chartType
    clearType := p.clearType.getD old.clearType }

/-- `setFilters` action: merge the patch into `filters` and reset
`pagination.page` to 0 while keeping `pagination.size`. -/
def setFilters (p : FiltersPatch) (s : ScoresState) : ScoresState :=
  { filters := mergeFilters s.filters p
    pagination := { s.pagination with page := 0 } }

/-- `setPage` action: `pagination = { ...state.pagination, page }`. -/
def setPage (page : Nat) (s : ScoresState) : ScoresState :=
  { s with pagination := { s.pagination with page := page } }

/-- `resetFilters` action. -/
def resetFilters (_s : ScoresState) : ScoresState :=
  { filters := { playStyle := "", level := "", chartType := "", clearType := "" }
    pagination := { page := 0, size := 20 } }

/-- Initial store state. -/
def initialScoresState : ScoresState :=
  { filters := { playStyle := "", level := "", chartType := "", clearType := "" }
    pagination := { page := 0, size := 20 } }

/-! ## `scoresApi.getScores` parameter stripping (`src/api/scores.js`) -/

/-- A value appearing in a request-params object. -/
inductive ParamValue where
  | strP (s : String)
  | numP (n : Int)
  | nullP
  | undefinedP
deriving DecidableEq

/-- A params object, as `Object.entries` sees it: an ordered association
list with (in JS) unique keys. -/
abbrev Params := List (String × ParamValue)

/-- The predicate of `scores.js` line 19:
`([, v]) => v !== '' && v !== null && v !== undefined`. -/
def keepParam : ParamValue → Bool
  | .strP s => s != ""
  | .numP _ => true
  | .nullP => false
  | .undefinedP => false

/-- `Object.fromEntries(Object.entries(params).filter(...))`: drop every
entry whose value is `''`, `null` or `undefined`. -/
def cleanParams (params : Params) : Params :=
  params.filter fun kv => keepParam kv.2

/-- Key lookup in a params object (JS property access on the object built by
`Object.fromEntries`). -/
def lookupParam (k : String) : Params → Option ParamValue
  | [] => none
  | (k', v) :: rest => if k = k' then some v else lookupParam k rest

/-- The keys of a params object. -/
def paramKeys (params : Params) : List String :=
  params.map Prod.fst

/-! ## Route guard (`src/components/guards/ProtectedRoute.jsx`) -/

/-- A logged-in user record (pass-through DTO; the guard only tests
presence). -/
structure User where
  id : Nat
  username : String
deriving DecidableEq

/-- What `ProtectedRoute` renders. -/
inductive GuardRender where
  | loadingView
  | redirect (target : String)
  | content
deriving DecidableEq

/-- `ProtectedRoute`: while `isLoading` render the waiting view; afterwards
`!user` redirects to `/login`, otherwise render `children`. -/
def protectedRoute (user : Option User) (isLoading : Bool) : GuardRender :=
  if isLoading then .loadingView
  else
    match user with
    | none => .redirect "/login"
    | some _ => .content

/-! ## Backend responses and errors -/

/-- A score record as rendered by the client (pass-through DTO; only its
identity matters to the hooks). -/
structure ScoreRecord where
  id : Nat
  title : String
deriving DecidableEq

/-- Spring `Page` response envelope `{content, totalElements, totalPages,
number}`. -/
structure PageResponse where
  content : List ScoreRecord
  totalElements : Nat
  totalPages : Nat
  number : Nat
deriving DecidableEq

/-- A rejected request as the hooks inspect it: `message` is
`err.response?.data?.message` — `none` when any link of the optional chain is
missing, `some m` (possibly `""`) when the backend sent a structured payload. -/
structure ApiError where
  message : Option String
deriving DecidableEq

/-- JS `x || fallback` applied to the optional backend message: `undefined`,
`null` and the empty string are falsy, so they all yield the fallback. -/
def errMessageOr (e : ApiError) (fallback : String) : String :=
  match e.message with
  | some m => if m = "" then fallback else m
  | none => fallback

/-- `scoresApi.getScores`: strip blank params, then issue the request. The
network is the `respond` oracle, applied to the transmitted (cleaned) params. -/
def getScores (respond : Params → Except ApiError PageResponse)
    (params : Params) : Except ApiError PageResponse :=
  respond (cleanParams params)

/-! ## Auth store (`src/store/authStore.js`) -/

/-- State held by the auth store. -/
structure AuthState where
  user : Option User
  isLoading : Bool
  error : Option String
deriving DecidableEq

/-- The object returned by `useAuthStore()`: alongside the state fields it
carries the store's `isAuthenticated` member, which is a *function* value
(a closure), not a boolean. -/
structure AuthStoreView where
  user : Option User
  isLoading : Bool
  error : Option String
  isAuthenticated : JsValue
deriving DecidableEq

/-- `useAuthStore()` as destructured by components: the `isAuthenticated`
property is the function closure defined in the store. -/
def useAuthStoreView (s : AuthState) : AuthStoreView :=
  { user := s.user, isLoading := s.isLoading, error := s.error
    isAuthenticated := JsValue.functionV }

/-- The body of the store's `isAuthenticated` function: `user !== null`.
This is what the closure returns when *called*. -/
def isAuthenticatedBody (s : AuthState) : Bool :=
  s.user != none

/-! ## Dashboard hook (`src/hooks/useDashboard.js`) -/

/-- The five-counter stats object of the dashboard hook. -/
structure DashStats where
  total : Nat
  fullCombo : Nat
  exHard : Nat
  hard : Nat
  clear : Nat
deriving DecidableEq

/-- Local state of `useDashboard`. -/
structure DashState where
  stats : DashStats
  recentScores : List ScoreRecord
  isLoading : Bool
  error : Option String
deriving DecidableEq

/-- Initial `useDashboard` state (`useState` initialisers). -/
def initialDashState : DashState :=
  { stats := { total := 0, fullCombo := 0, exHard := 0, hard := 0, clear := 0 }
    recentScores := [], isLoading := true, error := none }

/-- `{ size: 1 }` — unfiltered total count. -/
def dashTotalParams : Params := [("size", .numP 1)]

/-- `{ clearType: 'FULL_COMBO', size: 1 }`. -/
def dashFcParams : Params := [("clearType", .strP "FULL_COMBO"), ("size", .numP 1)]

/-- `{ clearType: 'EX_HARD_CLEAR', size: 1 }`. -/
def dashExHardParams : Params := [("clearType", .strP "EX_HARD_CLEAR"), ("size", .numP 1)]

/-- `{ clearType: 'HARD_CLEAR', size: 1 }`. -/
def dashHardParams : Params := [("clearType", .strP "HARD_CLEAR"), ("size", .numP 1)]

/-- `{ clearType: 'CLEAR', size: 1 }`. -/
def dashClearParams : Params := [("clearType", .strP "CLEAR"), ("size", .numP 1)]

/-- `{ page: 0, size: 5 }` — recent-scores slice. -/
def dashRecentParams : Params := [("page", .numP 0), ("size", .numP 5)]

/-- The six param objects of the `Promise.all` fan-out, in source order. -/
def dashboardQueries : List Params :=
  [dashTotalParams, dashFcParams, dashExHardParams, dashHardParams,
   dashClearParams, dashRecentParams]

/-- Fallback dashboard error message. -/
def dashboardFallbackMsg : String := "대시보드 데이터를 불러오는데 실패했습니다."

/-- `Promise.all` over the six requests: succeeds with all six responses, or
rejects with the first rejection. -/
def joinSix (r1 r2 r3 r4 r5 r6 : Except ApiError PageResponse) :
    Except ApiError
      (PageResponse × PageResponse × PageResponse × PageResponse ×
        PageResponse × PageResponse) :=
  match r1 with
  | .error e => .error e
  | .ok a =>
    match r2 with
    | .error e => .error e
    | .ok b =>
      match r3 with
      | .error e => .error e
      | .ok c =>
        match r4 with
        | .error e => .error e
        | .ok d =>
          match r5 with
          | .error e => .error e
          | .ok e5 =>
            match r6 with
            | .error e => .error e
            | .ok f => .ok (a, b, c, d, e5, f)

/-- `fetchDashboardData`: the hook destructures `isAuthenticated` (a function
value) from the store and tests `!isAuthenticated` on it; when that gate does
not fire, it fans out the six `getScores` calls, joins them, and either sets
stats/recent from the responses or sets the extracted error message, clearing
`isLoading` in every outcome. Returns the new state together with the list of
transmitted queries. -/
def fetchDashboardData (auth : AuthState)
    (respond : Params → Except ApiError PageResponse)
    (st : DashState) : DashState × List Params :=
  let isAuthenticated := (useAuthStoreView auth).isAuthenticated
  if !(jsTruthy isAuthenticated) then
    ({ st with isLoading := false }, [])
  else
    let issued := dashboardQueries.map cleanParams
    match joinSix (getScores respond dashTotalParams) (getScores respond dashFcParams)
        (getScores respond dashExHardParams) (getScores respond dashHardParams)
        (getScores respond dashClearParams) (getScores respond dashRecentParams) with
    | .ok (totalRes, fcRes, exHardRes, hardRes, clearRes, recentRes) =>
      ({ stats := { total := totalRes.totalElements, fullCombo := fcRes.totalElements
                    exHard := exHardRes.totalElements, hard := hardRes.totalElements
                    clear := clearRes.totalElements }
         recentScores := recentRes.content, isLoading := false, error := none }, issued)
    | .error err =>
      ({ st with error := some (errMessageOr err dashboardFallbackMsg)
                 isLoading := false }, issued)

/-! ## Score-list hook (`useScores`, `src/hooks/useScores.js`) -/

/-- Local state of `useScores`: the whole Spring page response (or `null`),
the loading flag and the error message. -/
structure ScoresHookState where
  data : Option PageResponse
  isLoading : Bool
  error : Option String
deriving DecidableEq

/-- Fallback score-list error message. -/
def scoresFallbackMsg : String := "스코어를 불러오는 데 실패했습니다."

/-- The params object `{ ...filters, page, size }` built by `fetchScores`. -/
def scoresQueryParams (filters : Filters) (pg : Pagination) : Params :=
  [("playStyle", .strP filters.playStyle), ("level", .strP filters.level),
   ("chartType", .strP filters.chartType), ("clearType", .strP filters.clearType),
   ("page", .numP pg.page), ("size", .numP pg.size)]

/-- `useScores.fetchScores`: one `getScores` call; on success replace `data`
and clear the error, on failure keep `data` and set the extracted message;
the `finally` step clears `isLoading` in both outcomes. -/
def fetchScores (filters : Filters) (pg : Pagination)
    (respond : Params → Except ApiError PageResponse)
    (st : ScoresHookState) : ScoresHookState :=
  match getScores respond (scoresQueryParams filters pg) with
  | .ok result => { data := some result, isLoading := false, error := none }
  | .error err =>
    { st with error := some (errMessageOr err scoresFallbackMsg), isLoading := false }

/-! ## CSV upload page (`src/pages/CsvUpload.jsx`) and
`importApi.uploadCsv` (progress-reporting version, `src/unnamed/part_001`) -/

/-- A selected `File` object as the page inspects it: name and byte size. -/
structure JsFile where
  name : String
  size : Nat
deriving DecidableEq

/-- Local toast message for a non-CSV file. -/
def csvTypeErrorMsg : String := "CSV 파일만 업로드 가능합니다."

/-- Local toast message for an oversized file. -/
def csvSizeErrorMsg : String := "파일 크기는 10MB 이하만 가능합니다."

/-- `validateFile`: no file fails silently; a name not ending in `.csv` or a
size over `10 * 1024 * 1024` bytes fails with a local toast message; anything
else passes. Returns the verdict and the toast message. -/
def validateFile : Option JsFile → Bool × Option String
  | none => (false, none)
  | some f =>
    if !(jsEndsWith f.name ".csv") then (false, some csvTypeErrorMsg)
    else if f.size > 10 * 1024 * 1024 then (false, some csvSizeErrorMsg)
    else (true, none)

/-- The `uploadState` string of the page. -/
inductive UploadStatus where
  | idle
  | uploading
  | success
  | error
deriving DecidableEq

/-- Upload response counts displayed verbatim on success. -/
structure ImportResult where
  songsImported : Nat
  chartsImported : Nat
  scoresImported : Nat
  scoresUpdated : Nat
deriving DecidableEq

/-- Local state of the CSV upload page. -/
structure CsvUploadState where
  file : Option JsFile
  playStyle : String
  uploadState : UploadStatus
  progress : Nat
  result : Option ImportResult
deriving DecidableEq

/-- `useState` initialisers of the page. -/
def initialCsvState : CsvUploadState :=
  { file := none, playStyle := "SP", uploadState := .idle, progress := 0
    result := none }

/-- The SP/DP selector buttons call `setPlayStyle`. -/
def setPlayStyle (ps : String) (st : CsvUploadState) : CsvUploadState :=
  { st with playStyle := ps }

/-- `handleFileSelect`: only a file passing `validateFile` is stored (and the
page returns to idle); an invalid selection leaves the state untouched. -/
def handleFileSelect (f : JsFile) (st : CsvUploadState) : CsvUploadState :=
  if (validateFile (some f)).1 then
    { st with file := some f, uploadState := .idle, result := none }
  else st

/-- The multipart body of one upload request: the form data holds the file
and the selected play style. -/
structure UploadRequest where
  file : JsFile
  playStyle : String
deriving DecidableEq

/-- An XHR upload progress event: bytes sent so far and the transfer total. -/
structure ProgressEvent where
  loaded : Nat
  total : Nat
deriving DecidableEq

/-- JS `Math.round(num / den)` for non-negative operands:
round half up, i.e. the floor of `num/den + 1/2`. -/
def jsMathRound (num den : Nat) : Nat := (2 * num + den) / (2 * den)

/-- The percentage computed in the `onUploadProgress` handler:
`Math.round((progressEvent.loaded * 100) / progressEvent.total)`. -/
def uploadPercent (e : ProgressEvent) : Nat := jsMathRound (e.loaded * 100) e.total

/-- The percent values delivered to the `onProgress` callback: the handler
fires only for events whose `total` is truthy (non-zero). -/
def deliveredPercents (events : List ProgressEvent) : List Nat :=
  (events.filter fun e => e.total != 0).map uploadPercent

/-- `importApi.uploadCsv` (the progress-reporting version): append the file
and play style to the form data, post it, and map each browser progress event
to a rounded percentage for the callback. Inputs include the stream of
progress events the transfer fires; outputs the response and the delivered
percentage sequence. -/
def uploadCsv (file : JsFile) (playStyle : String) (events : List ProgressEvent)
    (respond : UploadRequest → Except ApiError ImportResult) :
    Except ApiError ImportResult × List Nat :=
  (respond { file := file, playStyle := playStyle }, deliveredPercents events)

/-- `handleUpload`: without a held file nothing happens; otherwise exactly one
`uploadCsv` request carrying the held file and the current play style is
issued, progress restarts at 0 and follows the delivered percents, and the
state moves to success (with the response counts) or error. Returns the new
state and the issued requests. -/
def handleUpload (st : CsvUploadState) (events : List ProgressEvent)
    (respond : UploadRequest → Except ApiError ImportResult) :
    CsvUploadState × List UploadRequest :=
  match st.file with
  | none => (st, [])
  | some f =>
    match uploadCsv f st.playStyle events respond with
    | (.ok data, percents) =>
      ({ st with uploadState := .success, result := some data
                 progress := percents.getLastD 0 },
       [{ file := f, playStyle := st.playStyle }])
    | (.error _, percents) =>
      ({ st with uploadState := .error, progress := percents.getLastD 0 },
       [{ file := f, playStyle := st.playStyle }])

/-! ## Signup page (`src/pages/Signup.jsx`) -/

/-- The controlled signup form fields. -/
structure SignupForm where
  username : String
  email : String
  password : String
  passwordConfirm : String
deriving DecidableEq

/-- The per-field `errors` object; `none` = no key for that field. -/
structure SignupErrors where
  username : Option String
  email : Option String
  password : Option String
  passwordConfirm : Option String
deriving DecidableEq

/-- The empty `errors` object. -/
def noSignupErrors : SignupErrors :=
  { username := none, email := none, password := none, passwordConfirm := none }

/-- `validate` of `Signup.jsx`: blank identifier or one shorter than 3
characters, email not containing `@` (`includes('@')`), password shorter than
8 characters, or a confirmation mismatch each add a field error. -/
def validate (form : SignupForm) : SignupErrors :=
  { username :=
      if jsTrim form.username = "" then some "아이디를 입력해주세요."
      else if form.username.length < 3 then some "아이디는 3자 이상이어야 합니다."
      else none
    email :=
      if !(jsIncludesChar form.email '@') then some "올바른 이메일 형식이 아닙니다." else none
    password :=
      if form.password.length < 8 then some "비밀번호는 8자 이상이어야 합니다." else none
    passwordConfirm :=
      if form.password != form.passwordConfirm then some "비밀번호가 일치하지 않습니다."
      else none }

/-- `Object.keys(validationErrors).length > 0`: some field has an error. -/
def signupHasErrors (e : SignupErrors) : Bool :=
  e.username.isSome || e.email.isSome || e.password.isSome || e.passwordConfirm.isSome

/-- One signup request body. -/
structure SignupRequest where
  username : String
  email : String
  password : String
deriving DecidableEq

/-- Modelled from the spec: `authApi.signup` is missing from the sources (only
its call site in `Signup.jsx` appears; `src/api/auth.js` holds login, logout
and getCurrentUser). Per the spec the signup endpoint is a backend contract
taking the identifier, email and password, so the call is modelled as issuing
exactly one signup request carrying those fields. -/
def authApiSignup (username email password : String) : SignupRequest :=
  { username := username, email := email, password := password }

/-- `handleSubmit` of `Signup.jsx`: run validation; with any error set the
field errors and send nothing; otherwise issue one signup request (the
success path does not touch the previously displayed errors object). Returns
the displayed errors and the issued requests. -/
def handleSubmit (form : SignupForm) (prevErrors : SignupErrors) :
    SignupErrors × List SignupRequest :=
  let validationErrors := validate form
  if signupHasErrors validationErrors then (validationErrors, [])
  else (prevErrors, [authApiSignup form.username form.email form.password])

/-! ## Theorems: store actions (C1, C10) -/

/-- C1: `setFilters` with any partial filter object yields
`pagination.page = 0`, keeps `pagination.size`, and keeps every filter field
the argument does not mention. -/
theorem setFilters_resets_page_keeps_rest (p : FiltersPatch) (s : ScoresState) :
    (setFilters p s).pagination.page = 0 ∧
    (setFilters p s).pagination.size = s.pagination.size ∧
    (p.playStyle = none → (setFilters p s).filters.playStyle = s.filters.playStyle) ∧
    (p.level = none → (setFilters p s).filters.level = s.filters.level) ∧
    (p.chartType = none → (setFilters p s).filters.chartType = s.filters.chartType) ∧
    (p.clearType = none → (setFilters p s).filters.clearType = s.filters.clearType) := by
  refine ⟨rfl, rfl, ?_, ?_, ?_, ?_⟩ <;>
    intro h <;> simp [setFilters, mergeFilters, h]

/-- C1 witness: a concrete `setFilters` call (only `level` mentioned) from a
concrete state. -/
theorem setFilters_resets_page_keeps_rest_witness :
    (setFilters { playStyle := none, level := some "12", chartType := none, clearType := none }
        { filters := { playStyle := "SP", level := "", chartType := "", clearType := "HARD_CLEAR" }
          pagination := { page := 3, size := 20 } }).pagination.page = 0 ∧
    (setFilters { playStyle := none, level := some "12", chartType := none, clearType := none }
        { filters := { playStyle := "SP", level := "", chartType := "", clearType := "HARD_CLEAR" }
          pagination := { page := 3, size := 20 } }).filters.playStyle = "SP" := by
  have h := setFilters_resets_page_keeps_rest
    { playStyle := none, level := some "12", chartType := none, clearType := none }
    { filters := { playStyle := "SP", level := "", chartType := "", clearType := "HARD_CLEAR" }
      pagination := { page := 3, size := 20 } }
  exact ⟨h.1, h.2.2.1 rfl⟩

/-- C10: `setPage p` changes only `pagination.page`; all filter fields and
`pagination.size` are unchanged. -/
theorem setPage_frame (p : Nat) (s : ScoresState) :
    (setPage p s).pagination.page = p ∧
    (setPage p s).pagination.size = s.pagination.size ∧
    (setPage p s).filters = s.filters := by
  exact ⟨rfl, rfl, rfl⟩

/-! ## Theorems: parameter stripping (C2) -/

/-- A cleaned params object never contains a key whose original value failed
the keep predicate when the original lookup already failed. -/
theorem lookupParam_filter_none (k : String) (ps : Params)
    (h : lookupParam k ps = none) :
    lookupParam k (cleanParams ps) = none := by
  induction ps with
  | nil => simp [cleanParams, lookupParam]
  | cons kv rest ih =>
    obtain ⟨k', v⟩ := kv
    by_cases hk : k = k'
    · simp [lookupParam, hk] at h
    · simp only [lookupParam, if_neg hk] at h
      simp only [cleanParams, List.filter_cons]
      by_cases hkeep : keepParam v
      · simpa [hkeep, lookupParam, hk] using ih h
      · simpa [hkeep] using ih h

/-- If `k` is not among the keys of `ps`, looking it up fails. -/
theorem lookupParam_eq_none_of_not_mem (k : String) (ps : Params)
    (h : k ∉ paramKeys ps) :
    lookupParam k ps = none := by
  induction ps with
  | nil => rfl
  | cons kv rest ih =>
    obtain ⟨k', v⟩ := kv
    simp only [paramKeys, List.map_cons, List.mem_cons] at h
    push_neg at h
    simp only [lookupParam, if_neg h.1]
    exact ih (by simpa [paramKeys] using h.2)

/-- C2: for a params object with unique keys (every JS object), a field whose
value is `''`, `null` or `undefined` is absent from the transmitted
(cleaned) params, and a field with any other value is transmitted unchanged. -/
theorem getScores_strips_blank_params (ps : Params) (k : String) (v : ParamValue)
    (hnd : (paramKeys ps).Nodup) (hv : lookupParam k ps = some v) :
    ((v = .strP "" ∨ v = .nullP ∨ v = .undefinedP) →
      lookupParam k (cleanParams ps) = none) ∧
    ((v ≠ .strP "" ∧ v ≠ .nullP ∧ v ≠ .undefinedP) →
      lookupParam k (cleanParams ps) = some v) := by
  induction ps with
  | nil => simp [lookupParam] at hv
  | cons kv rest ih =>
    obtain ⟨k', v'⟩ := kv
    simp only [paramKeys, List.map_cons, List.nodup_cons] at hnd
    by_cases hk : k = k'
    · simp only [lookupParam, if_pos hk] at hv
      have hveq : v' = v := by injection hv
      subst hveq
      constructor
      · intro hblank
        have hkeep : keepParam v' = false := by
          rcases hblank with h | h | h <;> simp [h, keepParam]
        simp only [cleanParams, List.filter_cons, hkeep, Bool.false_eq_true,
          if_false]
        refine lookupParam_filter_none k rest ?_
        refine lookupParam_eq_none_of_not_mem k rest ?_
        rw [hk]
        exact hnd.1
      · intro hfull
        have hkeep : keepParam v' = true := by
          cases v' with
          | strP s =>
            have hs : s ≠ "" := fun hs => hfull.1 (by rw [hs])
            simp [keepParam, hs]
          | numP n => rfl
          | nullP => exact absurd rfl hfull.2.1
          | undefinedP => exact absurd rfl hfull.2.2
        simp [cleanParams, List.filter_cons, hkeep, lookupParam, if_pos hk]
    · simp only [lookupParam, if_neg hk] at hv
      have hrec := ih hnd.2 hv
      constructor
      · intro hblank
        have := hrec.1 hblank
        simp only [cleanParams, List.filter_cons]
        by_cases hkeep : keepParam v'
        · simpa [hkeep, lookupParam, hk] using this
        · simpa [hkeep] using this
      · intro hfull
        have := hrec.2 hfull
        simp only [cleanParams, List.filter_cons]
        by_cases hkeep : keepParam v'
        · simpa [hkeep, lookupParam, hk] using this
        · simpa [hkeep] using this

/-- C2 witness: in `{ level: 12, playStyle: '', clearType: null }` the blank
fields are stripped and `level` is transmitted unchanged. -/
theorem getScores_strips_blank_params_witness :
    lookupParam "playStyle"
      (cleanParams [("level", .numP 12), ("playStyle", .strP ""), ("clearType", .nullP)]) = none ∧
    lookupParam "level"
      (cleanParams [("level", .numP 12), ("playStyle", .strP ""), ("clearType", .nullP)]) =
      some (.numP 12) := by
  constructor
  · exact (getScores_strips_blank_params
      [("level", .numP 12), ("playStyle", .strP ""), ("clearType", .nullP)]
      "playStyle" (.strP "") (by decide) (by decide)).1 (Or.inl rfl)
  · exact (getScores_strips_blank_params
      [("level", .numP 12), ("playStyle", .strP ""), ("clearType", .nullP)]
      "level" (.numP 12) (by decide) (by decide)).2 (by decide)

/-! ## Theorems: route guard (C4) -/

/-- C4: the route guard renders the waiting view while loading (never a
redirect, never the content), redirects to `/login` when resolved with no
user, and renders the protected children when resolved with a user. -/
theorem protectedRoute_cases (user : Option User) :
    protectedRoute user true = .loadingView ∧
    protectedRoute none false = .redirect "/login" ∧
    (∀ u : User, protectedRoute (some u) false = .content) := by
  refine ⟨rfl, rfl, fun u => rfl⟩

/-! ## Theorems: dashboard aggregation (C3, C9) -/

/-- C3: evaluation at the failing input. With the auth store reporting no
session (`user = null`, probe settled), the store's own `isAuthenticated`
function body yields `false`, yet `fetchDashboardData` still transmits all 6
list requests and ends with an error — because the hook destructures
`isAuthenticated` (a function value) and tests `!isAuthenticated` without
calling it, which is always falsy, so the no-session early return never runs. -/
theorem dashboard_gate_ineffective :
    isAuthenticatedBody { user := none, isLoading := false, error := none } = false ∧
    ((fetchDashboardData { user := none, isLoading := false, error := none }
        (fun _ => Except.error { message := some "Unauthorized" })
        initialDashState).2).length = 6 ∧
    (fetchDashboardData { user := none, isLoading := false, error := none }
        (fun _ => Except.error { message := some "Unauthorized" })
        initialDashState).1.error = some "Unauthorized" := by
  refine ⟨rfl, rfl, rfl⟩

/-- C9: if any one of the six transmitted dashboard requests fails, the
aggregation fails as a whole: exactly one combined error message is surfaced,
`isLoading` is cleared, and both the stats object and the recent-scores list
keep the values they had before the invocation. -/
theorem dashboard_error_is_atomic (auth : AuthState)
    (respond : Params → Except ApiError PageResponse) (st : DashState)
    (h : ∃ q ∈ dashboardQueries, ∃ e, respond (cleanParams q) = Except.error e) :
    (fetchDashboardData auth respond st).1.stats = st.stats ∧
    (fetchDashboardData auth respond st).1.recentScores = st.recentScores ∧
    (fetchDashboardData auth respond st).1.isLoading = false ∧
    ∃ m, (fetchDashboardData auth respond st).1.error = some m := by
  unfold fetchDashboardData
  simp only [useAuthStoreView, jsTruthy, Bool.not_true, Bool.false_eq_true,
    if_false, getScores]
  cases h1 : respond (cleanParams dashTotalParams) with
  | error e1 => simp [joinSix, h1]
  | ok p1 =>
    cases h2 : respond (cleanParams dashFcParams) with
    | error e2 => simp [joinSix, h1, h2]
    | ok p2 =>
      cases h3 : respond (cleanParams dashExHardParams) with
      | error e3 => simp [joinSix, h1, h2, h3]
      | ok p3 =>
        cases h4 : respond (cleanParams dashHardParams) with
        | error e4 => simp [joinSix, h1, h2, h3, h4]
        | ok p4 =>
          cases h5 : respond (cleanParams dashClearParams) with
          | error e5 => simp [joinSix, h1, h2, h3, h4, h5]
          | ok p5 =>
            cases h6 : respond (cleanParams dashRecentParams) with
            | error e6 => simp [joinSix, h1, h2, h3, h4, h5, h6]
            | ok p6 =>
              exfalso
              simp only [dashboardQueries, List.mem_cons, List.not_mem_nil,
                or_false, exists_eq_or_imp, exists_eq_left] at h
              rcases h with ⟨e, he⟩ | ⟨e, he⟩ | ⟨e, he⟩ | ⟨e, he⟩ | ⟨e, he⟩ | ⟨e, he⟩ <;>
                simp_all

/-- C9 witness: concrete failure of the FULL_COMBO count request leaves the
previous stats and recent list untouched and surfaces one error. -/
theorem dashboard_error_is_atomic_witness :
    (fetchDashboardData { user := some { id := 1, username := "dj" }, isLoading := false, error := none }
        (fun q => if q = cleanParams dashFcParams
          then Except.error { message := some "boom" }
          else Except.ok { content := [], totalElements := 7, totalPages := 1, number := 0 })
        { stats := { total := 7, fullCombo := 2, exHard := 1, hard := 1, clear := 3 }
          recentScores := [{ id := 5, title := "AA" }], isLoading := false, error := none }).1.stats
      = { total := 7, fullCombo := 2, exHard := 1, hard := 1, clear := 3 } ∧
    ∃ m, (fetchDashboardData { user := some { id := 1, username := "dj" }, isLoading := false, error := none }
        (fun q => if q = cleanParams dashFcParams
          then Except.error { message := some "boom" }
          else Except.ok { content := [], totalElements := 7, totalPages := 1, number := 0 })
        { stats := { total := 7, fullCombo := 2, exHard := 1, hard := 1, clear := 3 }
          recentScores := [{ id := 5, title := "AA" }], isLoading := false, error := none }).1.error
      = some m := by
  have h := dashboard_error_is_atomic
    { user := some { id := 1, username := "dj" }, isLoading := false, error := none }
    (fun q => if q = cleanParams dashFcParams
      then Except.error { message := some "boom" }
      else Except.ok { content := [], totalElements := 7, totalPages := 1, number := 0 })
    { stats := { total := 7, fullCombo := 2, exHard := 1, hard := 1, clear := 3 }
      recentScores := [{ id := 5, title := "AA" }], isLoading := false, error := none }
    ⟨dashFcParams, by decide, { message := some "boom" }, by simp⟩
  exact ⟨h.1, h.2.2.2⟩

/-! ## Theorems: score-list error path (C5) -/

/-- C5 counterexample: the claim asserts that any rejection carrying
`{response:{data:{message:"X"}}}` ends with `error = "X"`; at `X = ""` the
code's `||` treats the empty message as falsy and substitutes the generic
fallback, so the state error is not `""`. -/
theorem fetchScores_empty_message_counterexample :
    (fetchScores initialScoresState.filters initialScoresState.pagination
        (fun _ => Except.error { message := some "" })
        { data := none, isLoading := true, error := none }).error ≠ some "" := by
  decide

/-- C5 (amended): a rejection whose structured backend message `X` is
non-empty ends the hook in `{error: X, isLoading: false}`; a rejection with a
missing or empty message yields the generic fallback message; and after every
outcome (success or failure) `isLoading` is `false`. -/
theorem fetchScores_error_contract (filters : Filters) (pg : Pagination)
    (respond : Params → Except ApiError PageResponse) (st : ScoresHookState) :
    (fetchScores filters pg respond st).isLoading = false ∧
    (∀ X : String, X ≠ "" →
      getScores respond (scoresQueryParams filters pg) = Except.error { message := some X } →
      (fetchScores filters pg respond st).error = some X) ∧
    (∀ e : ApiError, e.message = none →
      getScores respond (scoresQueryParams filters pg) = Except.error e →
      (fetchScores filters pg respond st).error = some scoresFallbackMsg) ∧
    (∀ e : ApiError, e.message = some "" →
      getScores respond (scoresQueryParams filters pg) = Except.error e →
      (fetchScores filters pg respond st).error = some scoresFallbackMsg) := by
  refine ⟨?_, ?_, ?_, ?_⟩
  · unfold fetchScores
    cases getScores respond (scoresQueryParams filters pg) <;> rfl
  · intro X hX hresp
    unfold fetchScores
    rw [hresp]
    simp [errMessageOr, hX]
  · intro e he hresp
    unfold fetchScores
    rw [hresp]
    simp [errMessageOr, he]
  · intro e he hresp
    unfold fetchScores
    rw [hresp]
    simp [errMessageOr, he]

/-- C5 witness: a concrete rejection with message `"X"` ends in
`{error: "X"}`, and a concrete success ends not-loading. -/
theorem fetchScores_error_contract_witness :
    (fetchScores initialScoresState.filters initialScoresState.pagination
        (fun _ => Except.error { message := some "X" })
        { data := none, isLoading := true, error := none }).error = some "X" ∧
    (fetchScores initialScoresState.filters initialScoresState.pagination
        (fun _ => Except.ok { content := [], totalElements := 0, totalPages := 0, number := 0 })
        { data := none, isLoading := true, error := none }).isLoading = false := by
  constructor
  · exact (fetchScores_error_contract initialScoresState.filters
      initialScoresState.pagination (fun _ => Except.error { message := some "X" })
      { data := none, isLoading := true, error := none }).2.1 "X" (by decide) rfl
  · exact (fetchScores_error_contract initialScoresState.filters
      initialScoresState.pagination
      (fun _ => Except.ok { content := [], totalElements := 0, totalPages := 0, number := 0 })
      { data := none, isLoading := true, error := none }).1

/-! ## Theorems: CSV upload validation (C6) -/

/-- C6: from the page's fresh state with any selected play style — a file
whose name does not end in `.csv` fails validation with a local message and
submitting sends no request; a file over 10 MiB likewise; a `.csv` file
within the cap passes validation and submitting issues exactly one upload
request carrying that file and the selected play style. -/
theorem csv_upload_validation (f : JsFile) (ps : String)
    (events : List ProgressEvent)
    (respond : UploadRequest → Except ApiError ImportResult) :
    (jsEndsWith f.name ".csv" = false →
      (validateFile (some f)).1 = false ∧ (validateFile (some f)).2 = some csvTypeErrorMsg ∧
      (handleUpload (handleFileSelect f (setPlayStyle ps initialCsvState)) events respond).2 = []) ∧
    (f.size > 10 * 1024 * 1024 →
      (validateFile (some f)).1 = false ∧ (validateFile (some f)).2.isSome ∧
      (handleUpload (handleFileSelect f (setPlayStyle ps initialCsvState)) events respond).2 = []) ∧
    (jsEndsWith f.name ".csv" = true → f.size ≤ 10 * 1024 * 1024 →
      (validateFile (some f)).1 = true ∧
      (handleUpload (handleFileSelect f (setPlayStyle ps initialCsvState)) events respond).2 =
        [{ file := f, playStyle := ps }]) := by
  refine ⟨?_, ?_, ?_⟩
  · intro hname
    have hval : validateFile (some f) = (false, some csvTypeErrorMsg) := by
      simp [validateFile, hname]
    refine ⟨by rw [hval], by rw [hval], ?_⟩
    simp [handleFileSelect, hval, setPlayStyle, initialCsvState, handleUpload]
  · intro hsize
    by_cases hname : jsEndsWith f.name ".csv"
    · have hval : validateFile (some f) = (false, some csvSizeErrorMsg) := by
        simp [validateFile, hname, hsize]
      refine ⟨by rw [hval], by rw [hval]; rfl, ?_⟩
      simp [handleFileSelect, hval, setPlayStyle, initialCsvState, handleUpload]
    · have hval : validateFile (some f) = (false, some csvTypeErrorMsg) := by
        simp [validateFile, hname]
      refine ⟨by rw [hval], by rw [hval]; rfl, ?_⟩
      simp [handleFileSelect, hval, setPlayStyle, initialCsvState, handleUpload]
  · intro hname hsize
    have hval : validateFile (some f) = (true, none) := by
      simp [validateFile, hname, Nat.not_lt.mpr hsize]
    refine ⟨by rw [hval], ?_⟩
    have hsel : handleFileSelect f (setPlayStyle ps initialCsvState) =
        { file := some f, playStyle := ps, uploadState := .idle, progress := 0
          result := none } := by
      simp [handleFileSelect, hval, setPlayStyle, initialCsvState]
    rw [hsel]
    cases hresp : respond { file := f, playStyle := ps } with
    | ok data => simp [handleUpload, uploadCsv, hresp]
    | error e => simp [handleUpload, uploadCsv, hresp]

/-- C6 witness: `data.txt` and an 11 MiB `data.csv` are rejected with no
request; a 1 KiB `data.csv` passes and submitting issues exactly one request
with that file and play style DP. -/
theorem csv_upload_validation_witness :
    (handleUpload (handleFileSelect { name := "data.txt", size := 1024 }
        (setPlayStyle "SP" initialCsvState)) []
        (fun _ => Except.ok { songsImported := 0, chartsImported := 0, scoresImported := 0, scoresUpdated := 0 })).2 = [] ∧
    (handleUpload (handleFileSelect { name := "data.csv", size := 11 * 1024 * 1024 }
        (setPlayStyle "SP" initialCsvState)) []
        (fun _ => Except.ok { songsImported := 0, chartsImported := 0, scoresImported := 0, scoresUpdated := 0 })).2 = [] ∧
    (handleUpload (handleFileSelect { name := "data.csv", size := 1024 }
        (setPlayStyle "DP" initialCsvState)) []
        (fun _ => Except.ok { songsImported := 0, chartsImported := 0, scoresImported := 0, scoresUpdated := 0 })).2 =
      [{ file := { name := "data.csv", size := 1024 }, playStyle := "DP" }] := by
  refine ⟨?_, ?_, ?_⟩
  · exact ((csv_upload_validation { name := "data.txt", size := 1024 } "SP" []
      (fun _ => Except.ok { songsImported := 0, chartsImported := 0, scoresImported := 0, scoresUpdated := 0 })).1
      (by decide)).2.2
  · exact ((csv_upload_validation { name := "data.csv", size := 11 * 1024 * 1024 } "SP" []
      (fun _ => Except.ok { songsImported := 0, chartsImported := 0, scoresImported := 0, scoresUpdated := 0 })).2.1
      (by decide)).2.2
  · exact ((csv_upload_validation { name := "data.csv", size := 1024 } "DP" []
      (fun _ => Except.ok { songsImported := 0, chartsImported := 0, scoresImported := 0, scoresUpdated := 0 })).2.2
      (by decide) (by decide)).2

/-! ## Theorems: signup validation (C7) -/

/-- C7 counterexample: the username `"   "` (three spaces) violates none of
the four conditions the claim lists — its length is 3, the email carries `@`,
the password has 8 characters and matches its confirmation — yet submission
is blocked with no request issued, because the code additionally requires a
non-blank trimmed identifier. -/
theorem signup_claim_counterexample :
    ¬ ("   " : String).length < 3 ∧
    jsIncludesChar "a@b.c" '@' = true ∧
    ¬ ("12345678" : String).length < 8 ∧
    (handleSubmit
      { username := "   ", email := "a@b.c", password := "12345678"
        passwordConfirm := "12345678" } noSignupErrors).2 = [] := by
  refine ⟨by decide, by decide, by decide, ?_⟩
  decide

/-- C7 (amended): a too-short identifier, an email without `@`, a too-short
password and a confirmation mismatch each independently populate their field
error and block submission; a form whose identifier is non-blank and at least
3 characters, whose email contains `@`, and whose password has at least 8
characters and equals its confirmation validates with no field errors and
issues exactly one signup request carrying the identifier, email and
password. -/
theorem signup_validation (form : SignupForm) (prev : SignupErrors) :
    (form.username.length < 3 →
      (validate form).username.isSome ∧ (handleSubmit form prev).2 = []) ∧
    (jsIncludesChar form.email '@' = false →
      (validate form).email.isSome ∧ (handleSubmit form prev).2 = []) ∧
    (form.password.length < 8 →
      (validate form).password.isSome ∧ (handleSubmit form prev).2 = []) ∧
    (form.password ≠ form.passwordConfirm →
      (validate form).passwordConfirm.isSome ∧ (handleSubmit form prev).2 = []) ∧
    (jsTrim form.username ≠ "" → 3 ≤ form.username.length →
      jsIncludesChar form.email '@' = true → 8 ≤ form.password.length →
      form.password = form.passwordConfirm →
      validate form = noSignupErrors ∧
      (handleSubmit form prev).2 =
        [authApiSignup form.username form.email form.password]) := by
  refine ⟨?_, ?_, ?_, ?_, ?_⟩
  · intro h
    have hu : (validate form).username.isSome = true := by
      simp only [validate]
      by_cases ht : jsTrim form.username = "" <;> simp [ht, h]
    exact ⟨hu, by simp [handleSubmit, signupHasErrors, hu]⟩
  · intro h
    have he : (validate form).email.isSome = true := by
      simp [validate, h]
    exact ⟨he, by simp [handleSubmit, signupHasErrors, he]⟩
  · intro h
    have hp : (validate form).password.isSome = true := by
      simp [validate, h]
    exact ⟨hp, by simp [handleSubmit, signupHasErrors, hp]⟩
  · intro h
    have hc : (validate form).passwordConfirm.isSome = true := by
      simp [validate, h]
    exact ⟨hc, by simp [handleSubmit, signupHasErrors, hc]⟩
  · intro ht hlen hat hplen hconf
    have hbne : (form.password != form.passwordConfirm) = false := by
      simp [hconf]
    have hv : validate form = noSignupErrors := by
      simp [validate, noSignupErrors, ht, Nat.not_lt.mpr hlen, hat,
        Nat.not_lt.mpr hplen, hbne]
    refine ⟨hv, ?_⟩
    simp [handleSubmit, hv, signupHasErrors, noSignupErrors]

/-- C7 witness: a 2-character identifier blocks submission; a fully valid
form issues exactly one signup request. -/
theorem signup_validation_witness :
    (handleSubmit
      { username := "ab", email := "a@b.c", password := "12345678"
        passwordConfirm := "12345678" } noSignupErrors).2 = [] ∧
    (handleSubmit
      { username := "djuser", email := "a@b.c", password := "12345678"
        passwordConfirm := "12345678" } noSignupErrors).2 =
      [authApiSignup "djuser" "a@b.c" "12345678"] := by
  constructor
  · exact ((signup_validation
      { username := "ab", email := "a@b.c", password := "12345678"
        passwordConfirm := "12345678" } noSignupErrors).1 (by decide)).2
  · exact ((signup_validation
      { username := "djuser", email := "a@b.c", password := "12345678"
        passwordConfirm := "12345678" } noSignupErrors).2.2.2.2
      (by decide) (by decide) (by decide) (by decide) rfl).2

/-! ## Theorems: upload progress (C8) -/

/-- `Math.round(n / den)` is monotone in the numerator. -/
theorem jsMathRound_mono (den : Nat) {n1 n2 : Nat} (h : n1 ≤ n2) :
    jsMathRound n1 den ≤ jsMathRound n2 den :=
  Nat.div_le_div_right (by omega)

/-- Mapping events with a common non-zero total to rounded percentages turns
a non-decreasing `loaded` chain into a non-decreasing percent chain. -/
theorem chain_percent_of_chain_loaded (t : Nat) :
    ∀ l : List ProgressEvent, (∀ e ∈ l, e.total = t) →
      l.Chain' (fun a b => a.loaded ≤ b.loaded) →
      (l.map uploadPercent).Chain' (· ≤ ·) := by
  intro l
  induction l with
  | nil => intro _ _; simp
  | cons a rest ih =>
    intro htot hmono
    cases rest with
    | nil => simp
    | cons b rest2 =>
      rw [List.map_cons, List.map_cons, List.chain'_cons]
      rw [List.chain'_cons] at hmono
      constructor
      · have hta : a.total = t := htot a (by simp)
        have htb : b.total = t := htot b (by simp)
        unfold uploadPercent
        rw [hta, htb]
        exact jsMathRound_mono t (Nat.mul_le_mul_right 100 hmono.1)
      · rw [← List.map_cons]
        exact ih (fun e he => htot e (List.mem_cons_of_mem a he)) hmono.2

/-- C8: over one upload — where every browser progress event carries the same
transfer total and `loaded` is delivered non-decreasingly — `uploadCsv`
reports each event with truthy total to the percentage callback as
`Math.round(loaded*100/total)`, and the delivered percentage sequence is
monotonically non-decreasing. -/
theorem uploadCsv_progress_monotone (file : JsFile) (playStyle : String)
    (events : List ProgressEvent)
    (respond : UploadRequest → Except ApiError ImportResult)
    (t : Nat) (htot : ∀ e ∈ events, e.total = t)
    (hmono : events.Chain' (fun a b => a.loaded ≤ b.loaded)) :
    (uploadCsv file playStyle events respond).2 =
      (events.filter fun e => e.total != 0).map uploadPercent ∧
    ((uploadCsv file playStyle events respond).2).Chain' (· ≤ ·) := by
  refine ⟨rfl, ?_⟩
  show (deliveredPercents events).Chain' (· ≤ ·)
  by_cases ht : t = 0
  · have hnil : events.filter (fun e => e.total != 0) = [] := by
      rw [List.filter_eq_nil_iff]
      intro e he
      simp [htot e he, ht]
    simp [deliveredPercents, hnil]
  · have hall : events.filter (fun e => e.total != 0) = events := by
      rw [List.filter_eq_self]
      intro e he
      simp [htot e he, ht]
    rw [deliveredPercents, hall]
    exact chain_percent_of_chain_loaded t events htot hmono

/-- C8 witness: three concrete events of a 1 KiB transfer produce the
non-decreasing percent sequence. -/
theorem uploadCsv_progress_monotone_witness :
    ((uploadCsv { name := "data.csv", size := 1024 } "SP"
      [{ loaded := 0, total := 1024 }, { loaded := 512, total := 1024 },
       { loaded := 1024, total := 1024 }]
      (fun _ => Except.ok { songsImported := 0, chartsImported := 0, scoresImported := 0, scoresUpdated := 0 })).2).Chain'
      (· ≤ ·) :=
  (uploadCsv_progress_monotone { name := "data.csv", size := 1024 } "SP"
    [{ loaded := 0, total := 1024 }, { loaded := 512, total := 1024 },
     { loaded := 1024, total := 1024 }]
    (fun _ => Except.ok { songsImported := 0, chartsImported := 0, scoresImported := 0, scoresUpdated := 0 })
    1024 (by decide) (by norm_num [List.chain'_cons, List.chain'_singleton])).2

end IidxClient
